import Mathlib

/-!
Shallow embedding of the view-layer logic of the wire-webapp fragment:
* `ModalsViewModel.js` — the modal dialog manager (queue + lifecycle state machine);
* `MentionSuggestions.tsx` — the mention autocomplete popup keyboard handling;
* the conversations sidebar `changeTab` handler;
* with external collaborators (localization, date formatting, DOM) modelled
  as concrete stand-ins, as the spec scopes them out.

JavaScript is untyped; text fields that may hold `undefined`, `null`, the
boolean `false` or a string are modelled by `JsVal`.  Callbacks are opaque
values (`Fn`), since invoking them has no effect on the manager's own state.
-/

/-- JavaScript value for the loosely typed text fields of modal options and
content (`undefined`, `null`, boolean `false`, or a string). -/
inductive JsVal where
  | undef
  | nul
  | jsFalse
  | str (s : String)
deriving DecidableEq, Repr

/-- JavaScript truthiness for the values `JsVal` can hold: only a non-empty
string is truthy. -/
def jsTruthy : JsVal → Bool
  | JsVal.str s => s ≠ ""
  | _ => false

/-- JavaScript `a || b` on `JsVal`. -/
def jsOr (a b : JsVal) : JsVal := if jsTruthy a then a else b

/-- Opaque callback value.  `noop` is the module-level `noop`; `ext id` is an
externally supplied callback; `hideRef` is the manager's own `this.hide`
method (installed as `onBgClick` when `preventClose` is false). -/
inductive Fn where
  | noop
  | ext (id : Nat)
  | hideRef
deriving DecidableEq, Repr

/-- A device record as consumed by the ACCOUNT_NEW_DEVICES branch
(`device.time`, `device.model`). -/
structure Device where
  time : String
  model : String
deriving DecidableEq, Repr

/-- The `options.data` payload: absent, a device array (ACCOUNT_NEW_DEVICES),
or a boolean flag (ACCOUNT_READ_RECEIPTS_CHANGED). -/
inductive JsData where
  | undef
  | devices (ds : List Device)
  | flag (b : Bool)
deriving DecidableEq, Repr

/-- JavaScript truthiness of the `data` payload (an array is always truthy). -/
def jsDataTruthy : JsData → Bool
  | JsData.undef => false
  | JsData.devices _ => true
  | JsData.flag b => b

/-- The `options.text` record; every field may be `undefined`. -/
structure TextOptions where
  action : JsVal := JsVal.undef
  htmlMessage : JsVal := JsVal.undef
  input : JsVal := JsVal.undef
  message : JsVal := JsVal.undef
  option : JsVal := JsVal.undef
  secondary : JsVal := JsVal.undef
  title : JsVal := JsVal.undef
deriving DecidableEq, Repr

/-- The `options` argument of `showModal` / `_showModal`, with the default
values applied by the destructuring
`{action = noop, close = noop, data, preventClose = false, secondary = noop, text = {}}`. -/
structure Options where
  action : Fn := Fn.noop
  close : Fn := Fn.noop
  data : JsData := JsData.undef
  preventClose : Bool := false
  secondary : Fn := Fn.noop
  text : TextOptions := {}
deriving DecidableEq, Repr

/-- Modelled from the spec: localization (`t` from utils/LocalizerUtil) is an
external collaborator (spec §1 scopes localization out); modelled as the
identity on the key string. -/
def t (key : String) : String := key

/-- Modelled from the spec: date formatting (`moment(...).format(...)`) is an
external library; modelled as the identity on the timestamp string. -/
def momentFormat (time : String) : String := time

/-- Modelled from the spec: `z.util.URLUtil.buildSupportUrl(z.config.SUPPORT.FORM.BUG)`
is an external collaborator; modelled as a fixed URL string. -/
def supportUrl : String := "support-url"

/-- The modal content record (`defaultContent` lists the same fields). -/
structure ModalContent where
  actionFn : Fn
  actionText : JsVal
  checkboxLabel : JsVal
  closeFn : Fn
  currentType : Option String
  inputPlaceholder : JsVal
  messageHtml : JsVal
  messageText : JsVal
  modalUie : String
  onBgClick : Fn
  secondaryFn : Fn
  secondaryText : JsVal
  titleText : JsVal
deriving DecidableEq, Repr

/-- The module-level default content record (`defaultContent`). -/
def defaultContent : ModalContent :=
  { actionFn := Fn.noop
    actionText := JsVal.str ""
    checkboxLabel := JsVal.str ""
    closeFn := Fn.noop
    currentType := none
    inputPlaceholder := JsVal.str ""
    messageHtml := JsVal.str ""
    messageText := JsVal.str ""
    modalUie := ""
    onBgClick := Fn.noop
    secondaryFn := Fn.noop
    secondaryText := JsVal.str ""
    titleText := JsVal.str "" }

/-- The lifecycle states (`States` object in the source). -/
inductive States where
  | NONE
  | READY
  | OPEN
  | CLOSING
deriving DecidableEq, Repr

def TYPE_ACCOUNT_NEW_DEVICES : String := "modal-account-new-devices"

def TYPE_ACCOUNT_READ_RECEIPTS_CHANGED : String := "modal-account-read-receipts-changed"

def TYPE_ACKNOWLEDGE : String := "modal-template-acknowledge"

def TYPE_CONFIRM : String := "modal-template-confirm"

def TYPE_INPUT : String := "modal-template-input"

def TYPE_OPTION : String := "modal-template-option"

def TYPE_SESSION_RESET : String := "modal-session-reset"

/-- The list `Object.values(ModalsViewModel.TYPE)` in insertion order. -/
def TYPE_values : List String :=
  [TYPE_ACCOUNT_NEW_DEVICES, TYPE_ACCOUNT_READ_RECEIPTS_CHANGED, TYPE_ACKNOWLEDGE,
   TYPE_CONFIRM, TYPE_INPUT, TYPE_OPTION, TYPE_SESSION_RESET]

/-- A queued modal request `{options, type}` (pushed by `showModal`). -/
structure ModalRequest where
  type : String
  options : Options
deriving DecidableEq, Repr

/-- The mutable state of a `ModalsViewModel` instance: the observables
`optionChecked`, `inputValue`, `content`, `state`, and the `queue` array. -/
structure MVM where
  optionChecked : Bool
  inputValue : String
  content : ModalContent
  state : States
  queue : List ModalRequest
deriving DecidableEq, Repr

/-- The constructor's initial state. -/
def initMVM : MVM :=
  { optionChecked := false
    inputValue := ""
    content := defaultContent
    state := States.NONE
    queue := [] }

/-- The type-specific `switch` of `_showModal`, applied to the content record
built from the options. -/
def applyTypeSwitch (type : String) (options : Options) (text : TextOptions)
    (c : ModalContent) : ModalContent :=
  if type = TYPE_ACCOUNT_NEW_DEVICES then
    let deviceList := String.join ((match options.data with
      | JsData.devices ds => ds
      | _ => []).map (fun (device : Device) =>
        let deviceTime := momentFormat device.time
        let deviceModel := t "modalAccountNewDevicesFrom" ++ " " ++ device.model
        "<div>" ++ deviceTime ++ " - UTC</div><div>" ++ deviceModel ++ "</div>"))
    { c with
      titleText := JsVal.str (t "modalAccountNewDevicesHeadline")
      actionText := JsVal.str (t "modalAcknowledgeAction")
      secondaryText := JsVal.str (t "modalAccountNewDevicesSecondary")
      messageText := JsVal.str (t "modalAccountNewDevicesMessage")
      messageHtml := JsVal.str
        ("<div class=\"modal__content__device-list\">" ++ deviceList ++ "</div>") }
  else if type = TYPE_ACCOUNT_READ_RECEIPTS_CHANGED then
    { c with
      actionText := JsVal.str (t "modalAcknowledgeAction")
      titleText := JsVal.str (if jsDataTruthy options.data
        then t "modalAccountReadReceiptsChangedOnHeadline"
        else t "modalAccountReadReceiptsChangedOffHeadline")
      messageText := JsVal.str (t "modalAccountReadReceiptsChangedMessage") }
  else if type = TYPE_ACKNOWLEDGE then
    { c with
      actionText := jsOr text.action (JsVal.str (t "modalAcknowledgeAction"))
      titleText := jsOr text.title (JsVal.str (t "modalAcknowledgeHeadline"))
      messageText := if jsTruthy text.htmlMessage then JsVal.jsFalse else text.message }
  else if type = TYPE_CONFIRM then
    { c with secondaryText := JsVal.str (t "modalConfirmSecondary") }
  else if type = TYPE_INPUT ∨ type = TYPE_OPTION then
    { c with secondaryText :=
        if text.secondary ≠ JsVal.undef then text.secondary
        else JsVal.str (t "modalOptionSecondary") }
  else if type = TYPE_SESSION_RESET then
    { c with
      titleText := JsVal.str (t "modalSessionResetHeadline")
      actionText := JsVal.str (t "modalAcknowledgeAction")
      messageHtml := JsVal.str (t "modalSessionResetMessage1"
        ++ "<a href=\"" ++ supportUrl
        ++ "\"rel=\"nofollow noopener noreferrer\" target=\"_blank\">"
        ++ t "modalSessionResetMessageLink" ++ "</a>" ++ t "modalSessionResetMessage2") }
  else c

/-- The content record `_showModal` builds for a supported `type` from
`options` (base record plus the type-specific `switch`). -/
def contentFor (type : String) (options : Options) : ModalContent :=
  let text := options.text
  applyTypeSwitch type options text
    { actionFn := options.action
      actionText := text.action
      checkboxLabel := text.option
      closeFn := options.close
      currentType := some type
      inputPlaceholder := text.input
      messageHtml := text.htmlMessage
      messageText := text.message
      modalUie := type
      onBgClick := if options.preventClose then Fn.noop else Fn.hideRef
      secondaryFn := options.secondary
      secondaryText := text.secondary
      titleText := text.title }

/-- Source method `_showModal`: rejects (logs and drops) an unsupported type without
mutating state; otherwise sets the content and moves to OPEN. -/
def showModalImpl (type : String) (options : Options) (s : MVM) : MVM :=
  if ¬ TYPE_values.contains type then s
  else { s with content := contentFor type options, state := States.OPEN }

/-- Source method `unqueue`: only when READY and the queue is non-empty, shift the oldest
request and show it. -/
def unqueue (s : MVM) : MVM :=
  if s.state = States.READY then
    match s.queue with
    | [] => s
    | r :: rest => showModalImpl r.type r.options { s with queue := rest }
  else s

/-- Source method `showModal`: push the request and attempt `unqueue`. -/
def showModal (type : String) (options : Options) (s : MVM) : MVM :=
  unqueue { s with queue := s.queue ++ [{ type := type, options := options }] }

/-- Source method `ready`: after DOM binding, move to READY and attempt `unqueue`
(`ko.applyBindings` is external). -/
def ready (s : MVM) : MVM :=
  unqueue { s with state := States.READY }

/-- Source method `hide`: move to CLOSING; invoking `closeFn()` is external to the
manager's own state. -/
def hide (s : MVM) : MVM :=
  { s with state := States.CLOSING }

/-- Source method `onModalHidden`: reset content, clear the transient inputs, return to
READY, and re-attempt `unqueue`. -/
def onModalHidden (s : MVM) : MVM :=
  unqueue { s with
    content := defaultContent
    inputValue := ""
    optionChecked := false
    state := States.READY }

/-- Source method `doAction`: the call `confirm()` invokes the action callback (external), then
`hide()`. -/
def doAction (s : MVM) : MVM := hide s

/-- Source method `doSecondary`: invokes the secondary callback (external), then `hide()`. -/
def doSecondary (s : MVM) : MVM := hide s

/-- The external triggers that drive the manager: the WARNING.MODAL pub/sub
event, the one-time bootstrap `ready` call, view events, and the knockout
two-way bindings on `inputValue` / `optionChecked`. -/
inductive Event where
  | showModal (type : String) (options : Options)
  | ready
  | hide
  | doAction
  | doSecondary
  | onModalHidden
  | setInput (v : String)
  | setOption (b : Bool)
deriving DecidableEq, Repr

/-- One external trigger applied to the manager state.  `ready` is the
one-time DOM-binding bootstrap, invoked while the manager is still in its
initial NONE state. -/
def step (s : MVM) (e : Event) : MVM :=
  match e with
  | Event.showModal ty opts => showModal ty opts s
  | Event.ready => if s.state = States.NONE then ready s else s
  | Event.hide => hide s
  | Event.doAction => doAction s
  | Event.doSecondary => doSecondary s
  | Event.onModalHidden => onModalHidden s
  | Event.setInput v => { s with inputValue := v }
  | Event.setOption b => { s with optionChecked := b }

/-- The manager state reached from the initial state by a trace of external
triggers. -/
def run (es : List Event) : MVM := es.foldl step initMVM

/-!
## MentionSuggestions.tsx
-/

/-- A user entity (external `User` class); only its identity matters here. -/
structure User where
  id : Nat
deriving DecidableEq, Repr

/-- Modelled from the spec: `clamp` from Util/NumberUtil is not under src;
it bounds a value to the interval `[lo, hi]`. -/
def clamp (value lo hi : Int) : Int := min (max value lo) hi

/-- Modelled from the spec: `KEY` from Util/KeyboardUtil is not under src;
standard DOM `KeyboardEvent.key` names. -/
def KEY_ARROW_UP : String := "ArrowUp"

def KEY_ARROW_DOWN : String := "ArrowDown"

def KEY_ENTER : String := "Enter"

def KEY_TAB : String := "Tab"

/-- The fields of a DOM keyboard event the handler reads. -/
structure KeyboardEvent where
  key : String
  shiftKey : Bool
deriving DecidableEq, Repr

/-- Source helper `updateSelectedIndex`: clamp the moved index to `[0, suggestions.length - 1]`. -/
def updateSelectedIndex (suggestions : List User) (delta : Int) (curr : Int) : Int :=
  clamp (curr + delta) 0 ((suggestions.length : Int) - 1)

/-- JavaScript array indexing `suggestions[i]` (`undefined` out of range). -/
def jsIndex (l : List User) (i : Int) : Option User :=
  if 0 ≤ i then l[i.toNat]? else none

/-- The observable outcome of one `onInput` keydown dispatch: the new
selection index, the suggestion passed to `onSelectionValidated` (if any),
and whether `preventDefault` / `stopPropagation` were called. -/
structure InputResult where
  selectedIndex : Int
  committed : Option User
  defaultPrevented : Bool
  propagationStopped : Bool
deriving DecidableEq, Repr

/-- Source handler `onInput`: dispatch on `event.key`; arrows move the selection (suppressing
the event), Enter/Tab validate the current selection unless shift is held,
any other key does nothing.  `targetInput` records whether the target input
element exists. -/
def onInput (suggestions : List User) (targetInput : Bool)
    (selectedSuggestionIndex : Int) (event : KeyboardEvent) : InputResult :=
  let noChange : InputResult :=
    { selectedIndex := selectedSuggestionIndex
      committed := none
      defaultPrevented := false
      propagationStopped := false }
  let moveSelection (delta : Int) : InputResult :=
    { selectedIndex := updateSelectedIndex suggestions delta selectedSuggestionIndex
      committed := none
      defaultPrevented := true
      propagationStopped := true }
  let validateSelection : InputResult :=
    if ¬ event.shiftKey ∧ targetInput then
      { selectedIndex := selectedSuggestionIndex
        committed := jsIndex suggestions selectedSuggestionIndex
        defaultPrevented := true
        propagationStopped := true }
    else noChange
  if event.key = KEY_ARROW_UP then moveSelection 1
  else if event.key = KEY_ARROW_DOWN then moveSelection (-1)
  else if event.key = KEY_ENTER then validateSelection
  else if event.key = KEY_TAB then validateSelection
  else noChange

/-- The selection index reached from the initial `useState(0)` value after a
sequence of keydown events. -/
def runKeys (suggestions : List User) (targetInput : Bool)
    (events : List KeyboardEvent) : Int :=
  events.foldl (fun idx e => (onInput suggestions targetInput idx e).selectedIndex) 0

/-- Source flag `isVisible`: the popup renders only for a non-empty suggestion list. -/
def isVisible (suggestions : List User) : Bool := suggestions.length > 0

/-- The effect body: attach the keydown listener (identified by the id of the
`onInput` closure created by this render) to the target input only when the
popup is visible and the target input exists.  Listeners already attached are
modelled as a list of closure ids. -/
def effectRun (suggestions : List User) (targetInput : Bool) (id : Nat)
    (listeners : List Nat) : List Nat :=
  if isVisible suggestions ∧ targetInput then listeners ++ [id] else listeners

/-- The effect's cleanup: remove this run's listener when the target input
exists (DOM `removeEventListener` of an unattached listener is a no-op,
modelled by `List.erase`). -/
def cleanupRun (targetInput : Bool) (id : Nat) (listeners : List Nat) : List Nat :=
  if targetInput then listeners.erase id else listeners

/-!
## Conversations sidebar (`changeTab`)
-/

/-- The sidebar tabs enum. -/
inductive SidebarTabs where
  | RECENT
  | FOLDER
  | FAVORITES
  | GROUPS
  | DIRECTS
  | ARCHIVES
  | CONNECT
  | PREFERENCES
deriving DecidableEq, Repr

/-- The sidebar state `changeTab` touches: the free-text conversations
filter, the current tab, and counters for the delegated external calls
(`conversationRepository.updateArchivedConversations`, `onExitPreferences`). -/
structure SidebarState where
  conversationsFilter : String
  currentTab : SidebarTabs
  updateArchivedCalls : Nat
  exitPreferencesCalls : Nat
deriving DecidableEq, Repr

/-- Source handler `changeTab`: refresh archived conversations when switching to ARCHIVES,
exit preferences when switching to any non-PREFERENCES tab, always reset the
free-text filter, and set the new tab. -/
def changeTab (nextTab : SidebarTabs) (s : SidebarState) : SidebarState :=
  let s := if nextTab = SidebarTabs.ARCHIVES then
      { s with updateArchivedCalls := s.updateArchivedCalls + 1 }
    else s
  let s := if nextTab ≠ SidebarTabs.PREFERENCES then
      { s with exitPreferencesCalls := s.exitPreferencesCalls + 1 }
    else s
  { s with conversationsFilter := "", currentTab := nextTab }

/-- Whether an external trigger only ever enqueues supported modal types. -/
def eventSupportedB (e : Event) : Bool :=
  match e with
  | Event.showModal ty _ => TYPE_values.contains ty
  | _ => true

/-- The invariant behind the amended C3: the manager never rests in READY
with a non-empty queue, and every queued request has a supported type. -/
def noStranding (s : MVM) : Prop :=
  (s.state = States.READY → s.queue = []) ∧
  ∀ r ∈ s.queue, TYPE_values.contains r.type = true

/-- A reachable state in which an acknowledge modal is OPEN with an empty
queue (bootstrap, then one supported request). -/
def openAckState : MVM := run [Event.ready, Event.showModal TYPE_ACKNOWLEDGE {}]

/-- An idle READY manager with one supported request waiting in the queue. -/
def readyQueuedState : MVM :=
  { initMVM with
    state := States.READY
    queue := [{ type := TYPE_ACKNOWLEDGE, options := {} }] }

/-- A reachable CLOSING state with one supported request still queued. -/
def closingQueuedState : MVM :=
  run [Event.ready, Event.showModal TYPE_ACKNOWLEDGE {},
       Event.showModal TYPE_CONFIRM {}, Event.hide]

/-- A trace whose final `onModalHidden` dequeues and drops an unsupported
request, leaving a supported request stranded in the READY state. -/
def strandedTrace : List Event :=
  [Event.ready, Event.showModal TYPE_ACKNOWLEDGE {}, Event.showModal "modal-bogus" {},
   Event.showModal TYPE_CONFIRM {}, Event.hide, Event.onModalHidden]

/-!
## Helper lemmas about the modal manager
-/

lemma unqueue_not_ready {s : MVM} (h : ¬ s.state = States.READY) : unqueue s = s := by
  unfold unqueue
  rw [if_neg h]

lemma unqueue_ready_nil {s : MVM} (hs : s.state = States.READY) (hq : s.queue = []) :
    unqueue s = s := by
  unfold unqueue
  rw [if_pos hs, hq]

lemma unqueue_ready_cons {s : MVM} {r : ModalRequest} {rest : List ModalRequest}
    (hs : s.state = States.READY) (hq : s.queue = r :: rest) :
    unqueue s = showModalImpl r.type r.options { s with queue := rest } := by
  unfold unqueue
  rw [if_pos hs, hq]

lemma showModalImpl_unsupported {ty : String} {opts : Options} {s : MVM}
    (h : ¬ TYPE_values.contains ty = true) : showModalImpl ty opts s = s := by
  unfold showModalImpl
  rw [if_pos h]

lemma showModalImpl_supported {ty : String} {opts : Options} {s : MVM}
    (h : TYPE_values.contains ty = true) :
    showModalImpl ty opts s =
      { s with content := contentFor ty opts, state := States.OPEN } := by
  unfold showModalImpl
  rw [if_neg (not_not_intro h)]

/-- The function `unqueue` either displays a request (moving to OPEN) or leaves the
content, lifecycle state, input and checkbox untouched; in every case it
never touches the input and checkbox values. -/
lemma unqueue_spec (s : MVM) :
    ((unqueue s).state = States.OPEN ∨
      ((unqueue s).content = s.content ∧ (unqueue s).state = s.state)) ∧
    (unqueue s).inputValue = s.inputValue ∧
    (unqueue s).optionChecked = s.optionChecked := by
  by_cases hs : s.state = States.READY
  · cases hq : s.queue with
    | nil =>
      rw [unqueue_ready_nil hs hq]
      exact ⟨Or.inr ⟨rfl, rfl⟩, rfl, rfl⟩
    | cons r rest =>
      rw [unqueue_ready_cons hs hq]
      by_cases hr : TYPE_values.contains r.type = true
      · rw [showModalImpl_supported hr]
        exact ⟨Or.inl rfl, rfl, rfl⟩
      · rw [showModalImpl_unsupported hr]
        exact ⟨Or.inr ⟨rfl, rfl⟩, rfl, rfl⟩
  · rw [unqueue_not_ready hs]
    exact ⟨Or.inr ⟨rfl, rfl⟩, rfl, rfl⟩

/-- A step of the manager keeps the default content in the idle states. -/
lemma step_preserves_idleDefault (s : MVM) (e : Event)
    (ih : s.state = States.NONE ∨ s.state = States.READY → s.content = defaultContent) :
    (step s e).state = States.NONE ∨ (step s e).state = States.READY →
      (step s e).content = defaultContent := by
  intro h
  cases e with
  | showModal ty opts =>
    have hspec := (unqueue_spec
      { s with queue := s.queue ++ [{ type := ty, options := opts }] }).1
    rcases hspec with hopen | ⟨hc, hst⟩
    · rcases h with h | h <;> rw [show step s (Event.showModal ty opts) =
        unqueue { s with queue := s.queue ++ [{ type := ty, options := opts }] }
        from rfl] at h <;> rw [hopen] at h <;> exact absurd h (by simp)
    · show (unqueue { s with queue := s.queue ++ [{ type := ty, options := opts }] }).content
        = defaultContent
      rw [hc]
      apply ih
      rcases h with h | h <;>
        rw [show step s (Event.showModal ty opts) =
          unqueue { s with queue := s.queue ++ [{ type := ty, options := opts }] }
          from rfl, hst] at h
      · exact Or.inl h
      · exact Or.inr h
  | ready =>
    by_cases hg : s.state = States.NONE
    · have hd : s.content = defaultContent := ih (Or.inl hg)
      have hspec := (unqueue_spec { s with state := States.READY }).1
      rcases hspec with hopen | ⟨hc, _⟩
      · rw [show step s Event.ready = unqueue { s with state := States.READY }
          from by simp [step, hg, ready]] at h
        rcases h with h | h <;> rw [hopen] at h <;> exact absurd h (by simp)
      · rw [show step s Event.ready = unqueue { s with state := States.READY }
          from by simp [step, hg, ready]]
        rw [hc]
        exact hd
    · rw [show step s Event.ready = s from by simp [step, hg]] at h ⊢
      exact ih h
  | hide =>
    rw [show step s Event.hide = { s with state := States.CLOSING } from rfl] at h
    rcases h with h | h <;> exact absurd h (by simp)
  | doAction =>
    rw [show step s Event.doAction = { s with state := States.CLOSING } from rfl] at h
    rcases h with h | h <;> exact absurd h (by simp)
  | doSecondary =>
    rw [show step s Event.doSecondary = { s with state := States.CLOSING } from rfl] at h
    rcases h with h | h <;> exact absurd h (by simp)
  | onModalHidden =>
    have hspec := (unqueue_spec { s with
      content := defaultContent, inputValue := "", optionChecked := false
      state := States.READY }).1
    rcases hspec with hopen | ⟨hc, _⟩
    · rw [show step s Event.onModalHidden = unqueue { s with
        content := defaultContent, inputValue := "", optionChecked := false
        state := States.READY } from rfl] at h
      rcases h with h | h <;> rw [hopen] at h <;> exact absurd h (by simp)
    · rw [show step s Event.onModalHidden = unqueue { s with
        content := defaultContent, inputValue := "", optionChecked := false
        state := States.READY } from rfl]
      rw [hc]
  | setInput v =>
    exact ih h
  | setOption b =>
    exact ih h

/-- Fold a step-preserved invariant along a trace of conditioned events. -/
lemma foldl_invariant (P : MVM → Prop) (cond : Event → Prop)
    (hstep : ∀ s e, cond e → P s → P (step s e)) :
    ∀ (es : List Event) (s : MVM), (∀ e ∈ es, cond e) → P s → P (es.foldl step s) := by
  intro es
  induction es with
  | nil => exact fun s _ hP => hP
  | cons e es ih =>
    intro s hc hP
    exact ih (step s e) (fun x hx => hc x (List.mem_cons_of_mem _ hx))
      (hstep s e (hc e (List.mem_cons_self _ _)) hP)

/-- C5: in every reachable state of the modal manager, if the lifecycle
state is NONE or READY then the content equals the default content record;
a non-default content record is only ever held while OPEN or CLOSING. -/
theorem default_content_when_idle (es : List Event)
    (h : (run es).state = States.NONE ∨ (run es).state = States.READY) :
    (run es).content = defaultContent := by
  have hinv := foldl_invariant
    (fun s => s.state = States.NONE ∨ s.state = States.READY →
      s.content = defaultContent)
    (fun _ => True)
    (fun s e _ ih => step_preserves_idleDefault s e ih)
    es initMVM (fun _ _ => trivial) (fun _ => rfl)
  exact hinv h

theorem default_content_when_idle_witness :
    ((run []).state = States.NONE ∨ (run []).state = States.READY) ∧
    (run []).content = defaultContent :=
  ⟨Or.inl rfl, default_content_when_idle [] (Or.inl rfl)⟩

lemma step_preserves_noStranding (s : MVM) (e : Event)
    (hc : eventSupportedB e = true) (ih : noStranding s) : noStranding (step s e) := by
  obtain ⟨ihr, ihq⟩ := ih
  cases e with
  | showModal ty opts =>
    have hty : TYPE_values.contains ty = true := by
      simpa [eventSupportedB] using hc
    show noStranding
      (unqueue { s with queue := s.queue ++ [{ type := ty, options := opts }] })
    by_cases hs : s.state = States.READY
    · have hq : s.queue = [] := ihr hs
      rw [unqueue_ready_cons (s := { s with
          queue := s.queue ++ [{ type := ty, options := opts }] }) hs (by rw [hq]; rfl),
        showModalImpl_supported hty]
      exact ⟨fun h => by simp at h, fun r hr => by rw [hq] at hr; simp at hr⟩
    · rw [unqueue_not_ready (s := { s with
        queue := s.queue ++ [{ type := ty, options := opts }] }) hs]
      refine ⟨fun h => absurd h hs, fun r hr => ?_⟩
      rcases List.mem_append.mp hr with hr | hr
      · exact ihq r hr
      · rw [List.mem_singleton.mp hr]
        exact hty
  | ready =>
    by_cases hg : s.state = States.NONE
    · rw [show step s Event.ready = unqueue { s with state := States.READY }
        from by simp [step, hg, ready]]
      cases hq : s.queue with
      | nil =>
        rw [unqueue_ready_nil (s := { s with state := States.READY, queue := [] }) rfl rfl]
        exact ⟨fun _ => rfl, by intro x hx; simp at hx⟩
      | cons r rest =>
        have hr : TYPE_values.contains r.type = true := ihq r (by rw [hq]; simp)
        rw [unqueue_ready_cons
            (s := { s with state := States.READY, queue := r :: rest }) rfl rfl,
          showModalImpl_supported hr]
        exact ⟨fun h => by simp at h,
          fun x hx => ihq x (by rw [hq]; exact List.mem_cons_of_mem _ hx)⟩
    · rw [show step s Event.ready = s from by simp [step, hg]]
      exact ⟨ihr, ihq⟩
  | hide =>
    refine ⟨fun h => ?_, ihq⟩
    simp [step, hide] at h
  | doAction =>
    refine ⟨fun h => ?_, ihq⟩
    simp [step, doAction, hide] at h
  | doSecondary =>
    refine ⟨fun h => ?_, ihq⟩
    simp [step, doSecondary, hide] at h
  | onModalHidden =>
    show noStranding (unqueue { s with
      content := defaultContent, inputValue := "", optionChecked := false
      state := States.READY })
    cases hq : s.queue with
    | nil =>
      rw [unqueue_ready_nil (s := { s with
        content := defaultContent, inputValue := "", optionChecked := false
        state := States.READY, queue := [] }) rfl rfl]
      exact ⟨fun _ => rfl, by intro x hx; simp at hx⟩
    | cons r rest =>
      have hr : TYPE_values.contains r.type = true := ihq r (by rw [hq]; simp)
      rw [unqueue_ready_cons (s := { s with
          content := defaultContent, inputValue := "", optionChecked := false
          state := States.READY, queue := r :: rest }) rfl rfl,
        showModalImpl_supported hr]
      exact ⟨fun h => by simp at h,
        fun x hx => ihq x (by rw [hq]; exact List.mem_cons_of_mem _ hx)⟩
  | setInput v => exact ⟨ihr, ihq⟩
  | setOption b => exact ⟨ihr, ihq⟩

/-- C3 counterexample: the claim fails as stated.  In this concrete trace an
unsupported request is placed in the queue (so not every queued request is
eventually shown), and when `onModalHidden` re-attempts `unqueue`, the
unsupported request is dequeued and dropped without a further re-attempt,
leaving a supported request stranded while the manager sits in READY. -/
theorem stranded_request_after_onModalHidden :
    (run strandedTrace).state = States.READY ∧ (run strandedTrace).queue ≠ [] := by
  decide

/-- C3 (amended): provided every `showModal` call in the trace uses a
supported modal type, the manager is never left sitting in READY with a
non-empty queue — after every `onModalHidden` (or any other trigger) the
re-attempted `unqueue` dequeues and shows the pending request. -/
theorem supported_queue_never_stranded (es : List Event)
    (hsup : ∀ e ∈ es, eventSupportedB e = true)
    (hReady : (run es).state = States.READY) :
    (run es).queue = [] := by
  have hinv := foldl_invariant
    noStranding (fun e => eventSupportedB e = true)
    step_preserves_noStranding es initMVM hsup
    ⟨fun _ => rfl, by intro r hr; simp [initMVM] at hr⟩
  exact hinv.1 hReady

theorem supported_queue_never_stranded_witness :
    (∀ e ∈ [Event.ready, Event.showModal TYPE_ACKNOWLEDGE {}, Event.hide,
        Event.onModalHidden], eventSupportedB e = true) ∧
    (run [Event.ready, Event.showModal TYPE_ACKNOWLEDGE {}, Event.hide,
        Event.onModalHidden]).state = States.READY ∧
    (run [Event.ready, Event.showModal TYPE_ACKNOWLEDGE {}, Event.hide,
        Event.onModalHidden]).queue = [] :=
  ⟨by decide, by decide,
    supported_queue_never_stranded _ (by decide) (by decide)⟩

/-- C1: while the manager is not READY, `showModal` appends the request to
the back of the queue without changing the lifecycle state (so arrival order
is preserved); whenever `unqueue` fires in READY with a non-empty queue it
removes exactly the oldest queued request, and (for a supported type) that
request is the one displayed next: the manager moves to OPEN with exactly
that request's content. -/
theorem fifo_unqueue_oldest_shown
    (s u : MVM) (ty : String) (opts : Options) (r : ModalRequest)
    (rest : List ModalRequest)
    (hu : ¬ u.state = States.READY)
    (hs : s.state = States.READY)
    (hq : s.queue = r :: rest)
    (hr : TYPE_values.contains r.type = true) :
    (showModal ty opts u).queue = u.queue ++ [{ type := ty, options := opts }] ∧
    (showModal ty opts u).state = u.state ∧
    (unqueue s).queue = rest ∧
    (unqueue s).state = States.OPEN ∧
    (unqueue s).content = contentFor r.type r.options := by
  have h1 : showModal ty opts u =
      { u with queue := u.queue ++ [{ type := ty, options := opts }] } := by
    show unqueue { u with queue := u.queue ++ [{ type := ty, options := opts }] } = _
    exact unqueue_not_ready hu
  rw [unqueue_ready_cons hs hq, showModalImpl_supported hr, h1]
  exact ⟨rfl, rfl, rfl, rfl, rfl⟩

theorem fifo_unqueue_oldest_shown_witness :
    (¬ initMVM.state = States.READY) ∧
    readyQueuedState.state = States.READY ∧
    readyQueuedState.queue = [{ type := TYPE_ACKNOWLEDGE, options := {} }] ∧
    TYPE_values.contains TYPE_ACKNOWLEDGE = true ∧
    ((showModal TYPE_CONFIRM {} initMVM).queue =
        initMVM.queue ++ [{ type := TYPE_CONFIRM, options := {} }] ∧
      (showModal TYPE_CONFIRM {} initMVM).state = initMVM.state ∧
      (unqueue readyQueuedState).queue = [] ∧
      (unqueue readyQueuedState).state = States.OPEN ∧
      (unqueue readyQueuedState).content = contentFor TYPE_ACKNOWLEDGE {}) :=
  ⟨by decide, by decide, by decide, by decide,
    fifo_unqueue_oldest_shown readyQueuedState initMVM TYPE_CONFIRM {}
      { type := TYPE_ACKNOWLEDGE, options := {} } []
      (by decide) (by decide) (by decide) (by decide)⟩

/-- C2 counterexample: the claim fails as stated.  From the reachable OPEN
state `openAckState`, a `showModal` call with the unsupported type
"modal-bogus" does not leave the state equal to its prior value: the
request is pushed onto the queue before the type is validated. -/
theorem unsupported_showModal_mutates_queue :
    (¬ TYPE_values.contains "modal-bogus" = true) ∧
    openAckState.state = States.OPEN ∧
    showModal "modal-bogus" {} openAckState ≠ openAckState := by
  decide

/-- C2 (amended): `_showModal` with an unsupported type never mutates the
state (the request is only logged and dropped); consequently `showModal`
with an unsupported type leaves the whole state unchanged when the manager
is READY with an empty queue, while from a non-READY state it changes only
the queue, appending the request (to be dropped later at dequeue). -/
theorem unsupported_modal_noop
    (s u : MVM) (ty : String) (opts : Options)
    (hty : ¬ TYPE_values.contains ty = true)
    (hs : s.state = States.READY) (hq : s.queue = [])
    (hu : ¬ u.state = States.READY) :
    showModalImpl ty opts s = s ∧
    showModalImpl ty opts u = u ∧
    showModal ty opts s = s ∧
    showModal ty opts u = { u with queue := u.queue ++ [{ type := ty, options := opts }] } := by
  refine ⟨showModalImpl_unsupported hty, showModalImpl_unsupported hty, ?_, ?_⟩
  · obtain ⟨oc, iv, c, st, q⟩ := s
    change st = States.READY at hs
    change q = [] at hq
    subst hs
    subst hq
    show unqueue
      { optionChecked := oc, inputValue := iv, content := c,
        state := States.READY,
        queue := [] ++ [{ type := ty, options := opts }] } = _
    simp only [List.nil_append]
    rw [unqueue_ready_cons rfl rfl, showModalImpl_unsupported hty]
  · show unqueue { u with queue := u.queue ++ [{ type := ty, options := opts }] } = _
    exact unqueue_not_ready hu

theorem unsupported_modal_noop_witness :
    (¬ TYPE_values.contains "modal-bogus" = true) ∧
    { initMVM with state := States.READY }.state = States.READY ∧
    { initMVM with state := States.READY }.queue = [] ∧
    (¬ initMVM.state = States.READY) ∧
    (showModalImpl "modal-bogus" {} { initMVM with state := States.READY } =
        { initMVM with state := States.READY } ∧
      showModalImpl "modal-bogus" {} initMVM = initMVM ∧
      showModal "modal-bogus" {} { initMVM with state := States.READY } =
        { initMVM with state := States.READY } ∧
      showModal "modal-bogus" {} initMVM =
        { initMVM with queue := initMVM.queue ++
          [{ type := "modal-bogus", options := {} }] }) :=
  ⟨by decide, by decide, by decide, by decide,
    unsupported_modal_noop { initMVM with state := States.READY } initMVM
      "modal-bogus" {} (by decide) (by decide) (by decide) (by decide)⟩

/-- C4 counterexample: the claim fails as stated.  From the reachable
CLOSING state `closingQueuedState` (a confirm request still queued),
`onModalHidden` does not leave the manager READY with the default content:
the re-attempted `unqueue` immediately opens the queued request. -/
theorem onModalHidden_reopens_next :
    closingQueuedState.state = States.CLOSING ∧
    (onModalHidden closingQueuedState).state ≠ States.READY ∧
    (onModalHidden closingQueuedState).content ≠ defaultContent := by
  decide

/-- C4 (amended): `onModalHidden` always clears the input value and the
checkbox; when the prior queue is empty it moreover leaves the manager in
READY with the content reset to the default record (with a non-empty queue
the re-attempted `unqueue` may immediately open the next request instead). -/
theorem onModalHidden_resets
    (s u : MVM) (hq : s.queue = []) :
    (onModalHidden s).state = States.READY ∧
    (onModalHidden s).content = defaultContent ∧
    (onModalHidden s).inputValue = "" ∧
    (onModalHidden s).optionChecked = false ∧
    (onModalHidden u).inputValue = "" ∧
    (onModalHidden u).optionChecked = false := by
  have hs : onModalHidden s = { s with
      content := defaultContent, inputValue := "", optionChecked := false
      state := States.READY } := by
    show unqueue { s with
      content := defaultContent, inputValue := "", optionChecked := false
      state := States.READY } = _
    exact unqueue_ready_nil rfl hq
  have hu := unqueue_spec { u with
    content := defaultContent, inputValue := "", optionChecked := false
    state := States.READY }
  exact ⟨by rw [hs], by rw [hs], by rw [hs], by rw [hs], hu.2.1, hu.2.2⟩

theorem onModalHidden_resets_witness :
    initMVM.queue = [] ∧
    ((onModalHidden initMVM).state = States.READY ∧
      (onModalHidden initMVM).content = defaultContent ∧
      (onModalHidden initMVM).inputValue = "" ∧
      (onModalHidden initMVM).optionChecked = false ∧
      (onModalHidden closingQueuedState).inputValue = "" ∧
      (onModalHidden closingQueuedState).optionChecked = false) :=
  ⟨rfl, onModalHidden_resets initMVM closingQueuedState rfl⟩

/-!
## Helper lemmas about the mention suggestion popup
-/

lemma clamp_nonneg_le (x hi : Int) (h : 0 ≤ hi) :
    0 ≤ clamp x 0 hi ∧ clamp x 0 hi ≤ hi := by
  unfold clamp
  exact ⟨le_min (le_max_right x 0) h, min_le_right _ _⟩

lemma onInput_selectedIndex_bound (sugg : List User) (tgt : Bool) (idx : Int)
    (e : KeyboardEvent) (hne : sugg ≠ []) (h0 : 0 ≤ idx)
    (h1 : idx ≤ (sugg.length : Int) - 1) :
    0 ≤ (onInput sugg tgt idx e).selectedIndex ∧
    (onInput sugg tgt idx e).selectedIndex ≤ (sugg.length : Int) - 1 := by
  have hpos : 0 < sugg.length := List.length_pos.mpr hne
  have hhi : 0 ≤ (sugg.length : Int) - 1 := by omega
  unfold onInput updateSelectedIndex
  dsimp only
  split_ifs <;>
    first
      | exact clamp_nonneg_le _ _ hhi
      | exact ⟨h0, h1⟩

lemma runKeys_bound_aux (sugg : List User) (tgt : Bool) (hne : sugg ≠ []) :
    ∀ (events : List KeyboardEvent) (idx : Int), 0 ≤ idx →
      idx ≤ (sugg.length : Int) - 1 →
      0 ≤ events.foldl (fun i e => (onInput sugg tgt i e).selectedIndex) idx ∧
      events.foldl (fun i e => (onInput sugg tgt i e).selectedIndex) idx ≤
        (sugg.length : Int) - 1 := by
  intro events
  induction events with
  | nil => exact fun idx h0 h1 => ⟨h0, h1⟩
  | cons e es ih =>
    intro idx h0 h1
    have hb := onInput_selectedIndex_bound sugg tgt idx e hne h0 h1
    exact ih _ hb.1 hb.2

/-- C6: for every non-empty suggestion list and every sequence of keydown
events delivered to the mention suggestion list, the selection index stays
within `[0, suggestions.length - 1]` (each update clamps it to these
bounds). -/
theorem selection_index_in_bounds (sugg : List User) (tgt : Bool)
    (events : List KeyboardEvent) (hne : sugg ≠ []) :
    0 ≤ runKeys sugg tgt events ∧
    runKeys sugg tgt events ≤ (sugg.length : Int) - 1 := by
  have hpos : 0 < sugg.length := List.length_pos.mpr hne
  have h1 : (0 : Int) ≤ (sugg.length : Int) - 1 := by omega
  exact runKeys_bound_aux sugg tgt hne events 0 le_rfl h1

theorem selection_index_in_bounds_witness :
    ([⟨0⟩, ⟨1⟩] : List User) ≠ [] ∧
    (0 ≤ runKeys [⟨0⟩, ⟨1⟩] true
        [{ key := "ArrowUp", shiftKey := false }, { key := "ArrowUp", shiftKey := false }] ∧
      runKeys [⟨0⟩, ⟨1⟩] true
        [{ key := "ArrowUp", shiftKey := false }, { key := "ArrowUp", shiftKey := false }] ≤
        (([⟨0⟩, ⟨1⟩] : List User).length : Int) - 1) :=
  ⟨by decide, selection_index_in_bounds _ _ _ (by decide)⟩

/-- C7: an ARROW_UP key moves the selection index by `+1` (toward later
entries of the suggestion sequence, which render first due to reverse
order) and an ARROW_DOWN key moves it by `-1`, each before clamping to
`[0, suggestions.length - 1]`; both suppress the event's default behavior
and propagation. -/
theorem arrow_keys_move_selection (sugg : List User) (tgt : Bool) (idx : Int)
    (shift : Bool) :
    onInput sugg tgt idx { key := KEY_ARROW_UP, shiftKey := shift } =
      { selectedIndex := clamp (idx + 1) 0 ((sugg.length : Int) - 1)
        committed := none
        defaultPrevented := true
        propagationStopped := true } ∧
    onInput sugg tgt idx { key := KEY_ARROW_DOWN, shiftKey := shift } =
      { selectedIndex := clamp (idx - 1) 0 ((sugg.length : Int) - 1)
        committed := none
        defaultPrevented := true
        propagationStopped := true } :=
  ⟨rfl, rfl⟩

/-- C8: an Enter or Tab keydown on the target input without shift commits
the suggestion at the current selection index through
`onSelectionValidated` and suppresses the event's default behavior and
propagation; with shift held nothing is committed and the event is not
suppressed. -/
theorem enter_tab_commits_selection
    (sugg : List User) (idx : Int) (e1 e2 : KeyboardEvent)
    (hk1 : e1.key = KEY_ENTER ∨ e1.key = KEY_TAB)
    (hk2 : e2.key = KEY_ENTER ∨ e2.key = KEY_TAB)
    (hs1 : e1.shiftKey = false) (hs2 : e2.shiftKey = true)
    (h0 : 0 ≤ idx) (hlt : idx < (sugg.length : Int)) :
    (onInput sugg true idx e1).committed = sugg[idx.toNat]? ∧
    sugg[idx.toNat]? ≠ none ∧
    (onInput sugg true idx e1).defaultPrevented = true ∧
    (onInput sugg true idx e1).propagationStopped = true ∧
    (onInput sugg true idx e1).selectedIndex = idx ∧
    (onInput sugg true idx e2).committed = none ∧
    (onInput sugg true idx e2).defaultPrevented = false ∧
    (onInput sugg true idx e2).propagationStopped = false ∧
    (onInput sugg true idx e2).selectedIndex = idx := by
  have hlt2 : idx.toNat < sugg.length := by omega
  have hnotnone : sugg[idx.toNat]? ≠ none := by
    rw [List.getElem?_eq_getElem hlt2]
    exact Option.some_ne_none _
  have h1 : onInput sugg true idx e1 =
      { selectedIndex := idx
        committed := jsIndex sugg idx
        defaultPrevented := true
        propagationStopped := true } := by
    obtain ⟨k1, sh1⟩ := e1
    change k1 = KEY_ENTER ∨ k1 = KEY_TAB at hk1
    change sh1 = false at hs1
    subst hs1
    rcases hk1 with h | h <;> subst h <;> rfl
  have h2 : onInput sugg true idx e2 =
      { selectedIndex := idx
        committed := none
        defaultPrevented := false
        propagationStopped := false } := by
    obtain ⟨k2, sh2⟩ := e2
    change k2 = KEY_ENTER ∨ k2 = KEY_TAB at hk2
    change sh2 = true at hs2
    subst hs2
    rcases hk2 with h | h <;> subst h <;> rfl
  have hjs : jsIndex sugg idx = sugg[idx.toNat]? := by
    unfold jsIndex
    rw [if_pos h0]
  rw [h1, h2, hjs]
  exact ⟨rfl, hnotnone, rfl, rfl, rfl, rfl, rfl, rfl, rfl⟩

theorem enter_tab_commits_selection_witness :
    (({ key := "Enter", shiftKey := false } : KeyboardEvent).key = KEY_ENTER ∨
      ({ key := "Enter", shiftKey := false } : KeyboardEvent).key = KEY_TAB) ∧
    (({ key := "Tab", shiftKey := true } : KeyboardEvent).key = KEY_ENTER ∨
      ({ key := "Tab", shiftKey := true } : KeyboardEvent).key = KEY_TAB) ∧
    (0 : Int) ≤ 0 ∧ (0 : Int) < (([⟨7⟩] : List User).length : Int) ∧
    ((onInput [⟨7⟩] true 0 { key := "Enter", shiftKey := false }).committed =
        ([⟨7⟩] : List User)[(0 : Int).toNat]? ∧
      ([⟨7⟩] : List User)[(0 : Int).toNat]? ≠ none ∧
      (onInput [⟨7⟩] true 0 { key := "Enter", shiftKey := false }).defaultPrevented = true ∧
      (onInput [⟨7⟩] true 0 { key := "Enter", shiftKey := false }).propagationStopped = true ∧
      (onInput [⟨7⟩] true 0 { key := "Enter", shiftKey := false }).selectedIndex = 0 ∧
      (onInput [⟨7⟩] true 0 { key := "Tab", shiftKey := true }).committed = none ∧
      (onInput [⟨7⟩] true 0 { key := "Tab", shiftKey := true }).defaultPrevented = false ∧
      (onInput [⟨7⟩] true 0 { key := "Tab", shiftKey := true }).propagationStopped = false ∧
      (onInput [⟨7⟩] true 0 { key := "Tab", shiftKey := true }).selectedIndex = 0) :=
  ⟨Or.inl rfl, Or.inr rfl, by decide, by decide,
    enter_tab_commits_selection [⟨7⟩] 0
      { key := "Enter", shiftKey := false } { key := "Tab", shiftKey := true }
      (Or.inl rfl) (Or.inr rfl) rfl rfl (by decide) (by decide)⟩

/-- C9: the keydown listener is attached to the target input only while the
suggestion list is non-empty and the target input exists, and the listener
installed by an effect run (a fresh closure, hence not already attached) is
removed again by that run's cleanup, so no handler remains attached after
cleanup. -/
theorem keydown_listener_lifecycle
    (sugg : List User) (tgt : Bool) (id : Nat) (listeners : List Nat)
    (hfresh : id ∉ listeners) :
    (id ∈ effectRun sugg tgt id listeners ↔ sugg ≠ [] ∧ tgt = true) ∧
    cleanupRun tgt id (effectRun sugg tgt id listeners) = listeners := by
  by_cases hV : sugg = []
  · subst hV
    have hvis : effectRun [] tgt id listeners = listeners := by
      unfold effectRun isVisible
      rw [if_neg]
      simp
    rw [hvis]
    constructor
    · constructor
      · intro h
        exact absurd h hfresh
      · rintro ⟨h, _⟩
        exact absurd rfl h
    · unfold cleanupRun
      by_cases ht : tgt = true
      · rw [if_pos ht, List.erase_of_not_mem hfresh]
      · rw [if_neg ht]
  · by_cases ht : tgt = true
    · have hvis : effectRun sugg tgt id listeners = listeners ++ [id] := by
        unfold effectRun isVisible
        rw [if_pos]
        exact ⟨by simpa using List.length_pos.mpr hV, ht⟩
      rw [hvis]
      constructor
      · simp [hV, ht]
      · unfold cleanupRun
        rw [if_pos ht, List.erase_append_right _ hfresh, List.erase_cons_head,
          List.append_nil]
    · have hvis : effectRun sugg tgt id listeners = listeners := by
        unfold effectRun isVisible
        rw [if_neg]
        rintro ⟨_, h⟩
        exact ht h
      rw [hvis]
      constructor
      · constructor
        · intro h
          exact absurd h hfresh
        · rintro ⟨_, h⟩
          exact absurd h ht
      · unfold cleanupRun
        rw [if_neg ht]

theorem keydown_listener_lifecycle_witness :
    (0 ∉ ([] : List Nat)) ∧
    ((0 ∈ effectRun [⟨3⟩] true 0 [] ↔ ([⟨3⟩] : List User) ≠ [] ∧ true = true) ∧
      cleanupRun true 0 (effectRun [⟨3⟩] true 0 []) = []) :=
  ⟨by decide, keydown_listener_lifecycle [⟨3⟩] true 0 [] (by decide)⟩

/-- C10: every `changeTab` call resets the free-text conversations filter to
the empty string and sets the requested tab as current, and it bumps the
`updateArchivedConversations` call count exactly when the target tab is
ARCHIVES. -/
theorem changeTab_resets_filter (s : SidebarState) (nextTab : SidebarTabs) :
    (changeTab nextTab s).conversationsFilter = "" ∧
    (changeTab nextTab s).currentTab = nextTab ∧
    (changeTab nextTab s).updateArchivedCalls =
      s.updateArchivedCalls + (if nextTab = SidebarTabs.ARCHIVES then 1 else 0) := by
  unfold changeTab
  dsimp only
  split_ifs <;> simp_all
